import Mathlib

/-!
Verification development for the BellCurve-Securities portfolio core.

Shallow embedding conventions:
* Python floats are modelled as exact numbers: rationals (ℚ) in the bootstrap
  simulator, where all arithmetic of the source is field arithmetic, and reals
  (ℝ) in the optimizer/statistics code, where `np.sqrt` appears.  Claims are
  settled against this exact-arithmetic embedding; floating-point rounding is
  out of scope.
* A float division whose divisor is 0 produces an IEEE inf/nan, which no real
  number represents; such a value is modelled as `none : Option ℝ` (see `fdiv`).
  `np.inf` deliberately returned by an objective function is modelled as
  `⊤ : EReal`.
* The SLSQP solver (`scipy.optimize.minimize`) is opaque; it is modelled as an
  oracle `Solver : OptProblem → Option (List ℝ)` receiving exactly the data the
  source passes to `minimize` (objective, constraint set, bounds, initial
  guess); `none` models `result.success = False`.
* Randomness of `sklearn.utils.resample` is modelled as an explicit draw
  oracle `draws : ℕ → ℕ → ℕ` giving the row index drawn for simulation `s`,
  day `d` (a fixed seed fixes this function).
* pandas DataFrames are lists of rows; plotly figure outputs are dropped.
-/

namespace BellCurve

/-! ### Bootstrap simulator (src/utils/bootstrap_simulator.py), over ℚ -/

/-- Dot product of a row with the weight vector, modelling
`bootstrap_sample.dot(weights)` applied to one row: elementwise product, then
sum. -/
def dotQ (xs ys : List ℚ) : ℚ := (List.zipWith (fun a b => a * b) xs ys).sum

/-- Model of `returns_df.shape[1]`: the number of columns of the (rectangular) returns
table, read off the first row. -/
def ncols (tbl : List (List ℚ)) : ℕ := (tbl.getD 0 []).length

/-- Model of `sim_days = int(sim_years * 252)` (src/utils/bootstrap_simulator.py line 24).
Python `int` truncates toward zero; on the nonnegative horizons this component
is called with, truncation coincides with the floor. -/
def sim_days (sim_years : ℚ) : ℕ := (Int.floor (sim_years * 252)).toNat

/-- Source function `run_bootstrap_simulation` (src/utils/bootstrap_simulator.py).
Returns the list of simulated ending values (the plotly figure of the source is
dropped).  Guard: an empty table, or a weight count different from the column
count, short-circuits to the empty result.  Each of `num_simulations` paths
draws `sim_days` whole rows from the table via the draw oracle, and compounds
`(1 + bootstrap_sample.dot(weights)).prod()` from a starting value of 1. -/
def run_bootstrap_simulation (returns_df : List (List ℚ)) (weights : List ℚ)
    (num_simulations : ℕ) (sim_years : ℚ) (draws : ℕ → ℕ → ℕ) : List ℚ :=
  if returns_df = [] ∨ weights.length ≠ ncols returns_df then []
  else
    (List.range num_simulations).map (fun s =>
      let bootstrap_sample :=
        (List.range (sim_days sim_years)).map (fun d => returns_df.getD (draws s d) [])
      ((bootstrap_sample.map (fun row => 1 + dotQ row weights)).prod))

/-- Helper: a one-row table with weight 1 compounds the constant factor
`1 + r` over `sim_days` draws, for every path. -/
theorem run_bootstrap_single_row (r : ℚ) (y : ℚ) (ns : ℕ) :
    run_bootstrap_simulation [[r]] [1] ns y (fun _ _ => 0) =
      List.replicate ns ((1 + r) ^ sim_days y) := by
  unfold run_bootstrap_simulation
  rw [if_neg (by simp [ncols])]
  simp [dotQ, List.map_map, Function.comp, List.prod_replicate]

/-- Claim C3, counterexample. Claim: a non-empty returns table with a weight
vector of mismatched length makes the bootstrap simulator fail with a
`DimensionMismatch` error, never silently coerced into a defined result.  In
the source there is no error at all: the mismatch case returns the defined
value `[]`, the very same result produced for an empty table. -/
theorem C3_counterexample :
    run_bootstrap_simulation [[(1:ℚ)/100]] [] 5 1 (fun _ _ => 0) = [] ∧
    run_bootstrap_simulation ([] : List (List ℚ)) [] 5 1 (fun _ _ => 0) = [] ∧
    ([[(1:ℚ)/100]] : List (List ℚ)) ≠ [] ∧
    List.length ([] : List ℚ) ≠ ncols [[(1:ℚ)/100]] := by
  refine ⟨?_, ?_, by decide, by decide⟩
  · unfold run_bootstrap_simulation
    rw [if_pos (Or.inr (by decide))]
  · unfold run_bootstrap_simulation
    rw [if_pos (Or.inl rfl)]

/-- Claim C3, amended. Both an empty returns table and a weight count different
from the column count make `run_bootstrap_simulation` return the empty result
immediately; no `DimensionMismatch` error exists in the code, so the two guard
cases are indistinguishable in the output. -/
theorem C3_guard_empty_result (returns_df : List (List ℚ)) (weights : List ℚ)
    (num_simulations : ℕ) (sim_years : ℚ) (draws : ℕ → ℕ → ℕ)
    (h : returns_df = [] ∨ weights.length ≠ ncols returns_df) :
    run_bootstrap_simulation returns_df weights num_simulations sim_years draws = [] := by
  unfold run_bootstrap_simulation
  rw [if_pos h]

/-- Witness for C3: a concrete one-row, two-column table with a length-1 weight
vector takes the guard branch and yields the empty result. -/
theorem C3_witness :
    (([[(3:ℚ)/100, 1/100]] : List (List ℚ)) = [] ∨
      List.length [(1:ℚ)] ≠ ncols [[(3:ℚ)/100, 1/100]]) ∧
    run_bootstrap_simulation [[(3:ℚ)/100, 1/100]] [(1:ℚ)] 7 1 (fun _ _ => 0) = [] :=
  ⟨Or.inr (by decide), C3_guard_empty_result _ _ 7 1 _ (Or.inr (by decide))⟩

/-- Claim C5. Per path the simulator draws `sim_days` whole cross-sectional rows
through the draw oracle and the ending value is `Π (1 + row · weights)` over
the draws starting from 1; in particular with one simulation, a one-day horizon
(`sim_years = 1/252`) and a draw oracle fixed on a known historical row `k`,
the ending value is exactly `1 + (row k · weights)`. -/
theorem C5_path_compounding (tbl : List (List ℚ)) (w : List ℚ) (draws : ℕ → ℕ → ℕ)
    (h1 : tbl ≠ []) (h2 : w.length = ncols tbl) :
    (∀ ns y, run_bootstrap_simulation tbl w ns y draws =
        (List.range ns).map (fun s =>
          ((List.range (sim_days y)).map
            (fun d => 1 + dotQ (tbl.getD (draws s d) []) w)).prod)) ∧
    (∀ k, draws 0 0 = k → k < tbl.length →
        run_bootstrap_simulation tbl w 1 ((1:ℚ)/252) draws
          = [1 + dotQ (tbl.getD k []) w]) := by
  have hguard : ¬(tbl = [] ∨ w.length ≠ ncols tbl) := by
    push_neg
    exact ⟨h1, h2⟩
  have hmain : ∀ ns y, run_bootstrap_simulation tbl w ns y draws =
      (List.range ns).map (fun s =>
        ((List.range (sim_days y)).map
          (fun d => 1 + dotQ (tbl.getD (draws s d) []) w)).prod) := by
    intro ns y
    unfold run_bootstrap_simulation
    rw [if_neg hguard]
    simp only [List.map_map]
    rfl
  refine ⟨hmain, ?_⟩
  intro k hk _
  have h252 : sim_days ((1:ℚ)/252) = 1 := by norm_num [sim_days]
  have hr1 : List.range 1 = [0] := rfl
  rw [hmain 1 ((1:ℚ)/252), h252, hr1]
  simp [hk]

/-- Witness for C5: a concrete 2×2 table, equal weights, a draw oracle fixed on
row 1; the single path of a one-day horizon ends at `1 + row₁ · w`. -/
theorem C5_witness :
    ([[(1:ℚ)/10, 2/10], [(3:ℚ)/10, 4/10]] : List (List ℚ)) ≠ [] ∧
    List.length [(1:ℚ)/2, 1/2] = ncols [[(1:ℚ)/10, 2/10], [(3:ℚ)/10, 4/10]] ∧
    (1 : ℕ) < List.length ([[(1:ℚ)/10, 2/10], [(3:ℚ)/10, 4/10]] : List (List ℚ)) ∧
    run_bootstrap_simulation [[(1:ℚ)/10, 2/10], [(3:ℚ)/10, 4/10]] [(1:ℚ)/2, 1/2] 1
        ((1:ℚ)/252) (fun _ _ => 1)
      = [1 + dotQ (([[(1:ℚ)/10, 2/10], [(3:ℚ)/10, 4/10]] : List (List ℚ)).getD 1 [])
            [(1:ℚ)/2, 1/2]] :=
  ⟨by decide, by decide, by decide,
    (C5_path_compounding _ _ _ (by decide) (by decide)).2 1 rfl (by decide)⟩

/-- Claim C10, counterexample. Claim: the horizon is `round(simYears × 252)`.
The source computes `int(sim_years * 252)`, which truncates: at
`simYears = 9/10` the simulator uses 226 days while rounding gives 227, and a
one-row table with return 1 compounds to `2^226`, not `2^227`. -/
theorem C10_counterexample :
    sim_days ((9:ℚ)/10) = 226 ∧
    round (((9:ℚ)/10) * 252) = 227 ∧
    run_bootstrap_simulation [[(1:ℚ)]] [1] 1 ((9:ℚ)/10) (fun _ _ => 0) = [2 ^ 226] := by
  have hf : sim_days ((9:ℚ)/10) = 226 := by
    norm_num [sim_days]
    all_goals decide
  refine ⟨hf, by rw [round_eq]; norm_num, ?_⟩
  rw [run_bootstrap_single_row, hf]
  norm_num

/-- Claim C10, amended. For every nonnegative `simYears` the horizon in periods
is `⌊simYears × 252⌋` (Python `int` truncation toward zero, which agrees with
the floor on nonnegative inputs), not the nearest integer; a one-row table
compounds exactly that many draws. -/
theorem C10_floor_horizon (sim_years r : ℚ) (_h : 0 ≤ sim_years) :
    sim_days sim_years = (Int.floor (sim_years * 252)).toNat ∧
    run_bootstrap_simulation [[r]] [1] 1 sim_years (fun _ _ => 0)
      = [(1 + r) ^ (Int.floor (sim_years * 252)).toNat] := by
  refine ⟨rfl, ?_⟩
  rw [run_bootstrap_single_row]
  rfl

/-- Witness for C10: horizon 5/2 years gives `⌊630⌋ = 630` compounding steps. -/
theorem C10_witness :
    (0:ℚ) ≤ 5/2 ∧
    run_bootstrap_simulation [[(1:ℚ)/10]] [1] 1 ((5:ℚ)/2) (fun _ _ => 0)
      = [(1 + (1:ℚ)/10) ^ (Int.floor (((5:ℚ)/2) * 252)).toNat] :=
  ⟨by norm_num, (C10_floor_horizon ((5:ℚ)/2) ((1:ℚ)/10) (by norm_num)).2⟩

/-! ### Statistics engine (src/utils/statistics_utils.py), over ℝ -/

noncomputable section

/-- Model of `returns.mean()`: arithmetic mean of a pandas Series (sum over length). -/
def seriesMean (xs : List ℝ) : ℝ := xs.sum / xs.length

/-- Model of `returns.std()`: pandas sample standard deviation (`ddof = 1`).  With fewer
than 2 observations pandas returns NaN, which no real number represents; that
case is modelled as `none`. -/
def seriesStd (xs : List ℝ) : Option ℝ :=
  if xs.length < 2 then none
  else some (Real.sqrt ((xs.map (fun x => (x - seriesMean xs) ^ 2)).sum / (xs.length - 1)))

/-- Source function `calculate_sharpe_ratio` (src/utils/statistics_utils.py lines
30-36), name
shortened for Lean.  Returns 0 when the series is empty or its standard
deviation is 0; otherwise `(mean − rf/252) / std × sqrt 252`.  A `none` output
models the NaN the source propagates when `std` is NaN (series of length 1). -/
def calculate_sharpe (returns : List ℝ) (risk_free_rate : ℝ) : Option ℝ :=
  if returns = [] ∨ seriesStd returns = some 0 then some 0
  else (seriesStd returns).map
    (fun s => (seriesMean returns - risk_free_rate / 252) / s * Real.sqrt 252)

/-- Claim C8. The Sharpe computation returns exactly 0 for an empty series and
for any series of zero standard deviation (no division by zero is attempted:
the guard fires before the divisor is used), and for any series whose standard
deviation is a nonzero number it returns exactly
`(mean − rf/252) / std × sqrt 252`. -/
theorem C8_sharpe_zero_std (risk_free_rate : ℝ) :
    calculate_sharpe [] risk_free_rate = some 0 ∧
    (∀ xs : List ℝ, seriesStd xs = some 0 →
        calculate_sharpe xs risk_free_rate = some 0) ∧
    (∀ (xs : List ℝ) (s : ℝ), seriesStd xs = some s → s ≠ 0 →
        calculate_sharpe xs risk_free_rate
          = some ((seriesMean xs - risk_free_rate / 252) / s * Real.sqrt 252)) := by
  refine ⟨?_, ?_, ?_⟩
  · unfold calculate_sharpe
    rw [if_pos (Or.inl rfl)]
  · intro xs hs
    unfold calculate_sharpe
    rw [if_pos (Or.inr hs)]
  · intro xs s hs hne
    unfold calculate_sharpe
    rw [if_neg, hs, Option.map_some']
    rintro (hnil | hzero)
    · rw [hnil] at hs
      simp [seriesStd] at hs
    · rw [hs] at hzero
      exact hne (Option.some.inj hzero)

/-- Witness for C8: the constant series `[0.001, 0.001, 0.001]` has standard
deviation exactly 0 and Sharpe exactly 0; a two-point series `[0, 2]` has
standard deviation `sqrt 2 ≠ 0` and gets the full formula. -/
theorem C8_witness :
    seriesStd [(1:ℝ)/1000, 1/1000, 1/1000] = some 0 ∧
    calculate_sharpe [(1:ℝ)/1000, 1/1000, 1/1000] ((2:ℝ)/100) = some 0 ∧
    seriesStd [(0:ℝ), 2] = some (Real.sqrt 2) ∧
    Real.sqrt 2 ≠ 0 ∧
    calculate_sharpe [(0:ℝ), 2] 0
      = some ((seriesMean [(0:ℝ), 2] - 0 / 252) / Real.sqrt 2 * Real.sqrt 252) := by
  have hm : seriesMean [(1:ℝ)/1000, 1/1000, 1/1000] = 1/1000 := by
    unfold seriesMean
    norm_num
  have h0 : seriesStd [(1:ℝ)/1000, 1/1000, 1/1000] = some 0 := by
    unfold seriesStd
    rw [if_neg (by norm_num)]
    rw [hm]
    norm_num
  have hm2 : seriesMean [(0:ℝ), 2] = 1 := by
    unfold seriesMean
    norm_num
  have h2 : seriesStd [(0:ℝ), 2] = some (Real.sqrt 2) := by
    unfold seriesStd
    rw [if_neg (by norm_num)]
    rw [hm2]
    norm_num
  have hne : Real.sqrt 2 ≠ 0 := by
    positivity
  exact ⟨h0, (C8_sharpe_zero_std ((2:ℝ)/100)).2.1 _ h0, h2, hne,
    (C8_sharpe_zero_std 0).2.2 _ _ h2 hne⟩

end

/-! ### Portfolio optimizer (src/utils/portfolio_optimizer.py), over ℝ -/

noncomputable section

/-- Dot product over ℝ: `np.sum(a * b)` / `np.dot(a, b)` on 1-d arrays. -/
def dotR (xs ys : List ℝ) : ℝ := (List.zipWith (fun a b => a * b) xs ys).sum

/-- Model of `np.dot(cov_matrix, weights)`: matrix-vector product, row by row. -/
def matVec (m : List (List ℝ)) (v : List ℝ) : List ℝ := m.map (fun row => dotR row v)

/-- Source function `calculate_portfolio_performance(weights, mean_returns, cov_matrix)`:
`(np.sum(mean_returns * weights) * 252,
  np.sqrt(np.dot(weights.T, np.dot(cov_matrix, weights))) * np.sqrt(252))`. -/
def calculate_portfolio_performance (weights mean_returns : List ℝ)
    (cov_matrix : List (List ℝ)) : ℝ × ℝ :=
  (dotR mean_returns weights * 252,
   Real.sqrt (dotR weights (matVec cov_matrix weights)) * Real.sqrt 252)

/-- Source function `calculate_neg_sharpe_ratio` (name shortened for Lean): the max-Sharpe
objective.  Returns `np.inf` — modelled as `⊤ : EReal` — when the portfolio
volatility is 0, avoiding the division; otherwise
`-(p_return - risk_free_rate) / p_volatility`. -/
def calculate_neg_sharpe (weights mean_returns : List ℝ) (cov_matrix : List (List ℝ))
    (risk_free_rate : ℝ) : EReal :=
  let p := calculate_portfolio_performance weights mean_returns cov_matrix
  if p.2 = 0 then ⊤
  else (((-(p.1 - risk_free_rate)) / p.2 : ℝ) : EReal)

/-- Source function `calculate_portfolio_variance`: despite the name, the source returns the
annualized volatility (second component of the performance pair). -/
def calculate_portfolio_variance (weights mean_returns : List ℝ)
    (cov_matrix : List (List ℝ)) : ℝ :=
  (calculate_portfolio_performance weights mean_returns cov_matrix).2

/-- The objective a `minimize` call is asked to minimize:
`negSharpe rf` for `opt_type = 'max_sharpe'`, `volatility` for
`'min_volatility'` and for every frontier sweep point. -/
inductive Objective where
  | negSharpe : ℝ → Objective
  | volatility : Objective

/-- Value of an objective at a weight vector. -/
def objectiveValue : Objective → List ℝ → List ℝ → List (List ℝ) → EReal
  | .negSharpe rf, w, μ, cov => calculate_neg_sharpe w μ cov rf
  | .volatility, w, μ, cov => ((calculate_portfolio_variance w μ cov : ℝ) : EReal)

/-- The scipy constraint dictionaries passed to `minimize`:
`sumToOne` models `{'type':'eq', 'fun': lambda w: np.sum(w) - 1}`, and
`targetReturn = some t` models the sweep constraint
`{'type':'eq', 'fun': lambda w: calculate_portfolio_performance(w,...)[0] - t}`. -/
structure ConstraintSet where
  sumToOne : Bool
  targetReturn : Option ℝ

/-- Meaning of a constraint set at a weight vector. -/
def satisfiesConstraints (cs : ConstraintSet) (μ : List ℝ) (cov : List (List ℝ))
    (w : List ℝ) : Prop :=
  (cs.sumToOne = true → w.sum = 1) ∧
  (∀ t, cs.targetReturn = some t →
    (calculate_portfolio_performance w μ cov).1 = t)

/-- The exact data one `scipy.optimize.minimize` call receives: objective,
problem data, constraint set, box bounds, initial guess.  Fields in this
order: objective, mean_returns, cov_matrix, constraints, bounds, init_guess. -/
structure OptProblem where
  objective : Objective
  mean_returns : List ℝ
  cov_matrix : List (List ℝ)
  constraints : ConstraintSet
  bounds : List (ℝ × ℝ)
  init_guess : List ℝ

/-- The SLSQP solver as an oracle: `none` models `result.success = False`,
`some w` models a successful solve returning `result.x = w`. -/
def Solver : Type := OptProblem → Option (List ℝ)

/-- Model of `init_guess = np.array(num_assets * [1. / num_assets])`: equal
weights.  Faithful for `n ≥ 1` only: with `n = 0` Python evaluates `1. / 0`
and raises `ZeroDivisionError` before any solver call, a path this total
function cannot express (in Lean `1/0 = 0` and the replicate is empty); the
raising behaviour is modelled separately by `init_guess_build`, and every
statement below that asserts a solver invocation assumes at least 1 asset. -/
def init_guess_equal (n : ℕ) : List ℝ := List.replicate n ((1:ℝ) / n)

/-- Model of evaluating `np.array(num_assets * [1. / num_assets])` including
its failure: Python builds the list `[1. / num_assets]` first, so with 0
assets a `ZeroDivisionError` is raised — modelled `none` — before
`find_optimal_portfolio` or `minimize` is ever reached; with 1 or more assets
the equal-weight guess is built. -/
def init_guess_build (n : ℕ) : Option (List ℝ) :=
  if n = 0 then none else some (init_guess_equal n)

/-- Source function `find_optimal_portfolio`: chooses the objective by `opt_type` and invokes
the solver from the equal-weight initial guess; returns `None` (here `none`)
when the solve does not succeed. -/
def find_optimal_portfolio (solver : Solver) (opt_type : Objective)
    (mean_returns : List ℝ) (cov_matrix : List (List ℝ)) (_risk_free_rate : ℝ)
    (num_assets : ℕ) (constraints : ConstraintSet) (bounds : List (ℝ × ℝ)) :
    Option (List ℝ) :=
  solver ⟨opt_type, mean_returns, cov_matrix, constraints, bounds, init_guess_equal num_assets⟩

/-- Model of `np.linspace(a, b, num)` with the default inclusive endpoint:
`num = 0` gives `[]`, `num = 1` gives `[a]`, otherwise `num` points
`a + (b - a) * i / (num - 1)` for `i = 0, …, num-1`. -/
def linspace (a b : ℝ) (num : ℕ) : List ℝ :=
  if num = 1 then [a]
  else (List.range num).map (fun i : ℕ => a + (b - a) * (i : ℝ) / ((num : ℝ) - 1))

/-- Float division valued in `Option ℝ`: `none` stands for the IEEE inf/nan a
zero divisor produces, which no real number represents. -/
def fdiv (x y : ℝ) : Option ℝ := if y = 0 then none else some (x / y)

/-- The guarded Sharpe computation the source uses for the Min-Volatility and
sweep rows: `(ret - rf) / vol if vol != 0 else 0`. -/
def guardedSharpe (ret vol rf : ℝ) : Option ℝ :=
  if vol ≠ 0 then fdiv (ret - rf) vol else some 0

/-- One column of the `results` array (transposed to a row of the output
DataFrame): annualized return, annualized volatility, stored Sharpe value,
weights. -/
structure RowCore where
  ret : ℝ
  vol : ℝ
  sharpeVal : Option ℝ
  weights : List ℝ

/-- A labeled row of the returned frontier DataFrame. -/
structure FrontierRow where
  label : String
  core : RowCore

/-- Column name `f'Portfolio {i+1}'` for column index `i`. -/
def portfolioLabel (i : ℕ) : String := "Portfolio " ++ toString (i + 1)

/-- The final `rename(columns={'Portfolio 1': 'Min Volatility', 'Portfolio 2':
'Max Sharpe'})`. -/
def renameLabel (s : String) : String :=
  if s = "Portfolio 1" then "Min Volatility"
  else if s = "Portfolio 2" then "Max Sharpe"
  else s

/-- Attach the renamed positional column labels to the stored columns,
starting at column index `i`. -/
def labelRows : ℕ → List RowCore → List FrontierRow
  | _, [] => []
  | i, c :: cs => ⟨renameLabel (portfolioLabel i), c⟩ :: labelRows (i + 1) cs

/-- The problem posed by the `'max_sharpe'` distinguished solve. -/
def maxSharpeProblem (μ : List ℝ) (cov : List (List ℝ)) (rf : ℝ)
    (cons : ConstraintSet) (bounds : List (ℝ × ℝ)) : OptProblem :=
  ⟨.negSharpe rf, μ, cov, cons, bounds, init_guess_equal μ.length⟩

/-- The problem posed by the `'min_volatility'` distinguished solve. -/
def minVolProblem (μ : List ℝ) (cov : List (List ℝ))
    (cons : ConstraintSet) (bounds : List (ℝ × ℝ)) : OptProblem :=
  ⟨.volatility, μ, cov, cons, bounds, init_guess_equal μ.length⟩

/-- The problem posed for one sweep target `t`: minimize volatility under the
rebuilt `eff_constraints` (sum-to-one plus the target-return equality), the
caller's bounds, and the equal-weight initial guess. -/
def sweepProblem (μ : List ℝ) (cov : List (List ℝ)) (bounds : List (ℝ × ℝ))
    (init : List ℝ) (t : ℝ) : OptProblem :=
  ⟨.volatility, μ, cov, ⟨true, some t⟩, bounds, init⟩

/-- A sweep success stores return, volatility, guarded Sharpe and weights. -/
def mkSweepCore (μ : List ℝ) (cov : List (List ℝ)) (rf : ℝ) (w : List ℝ) : RowCore :=
  let p := calculate_portfolio_performance w μ cov
  ⟨p.1, p.2, guardedSharpe p.1 p.2 rf, w⟩

/-- The one failure the dense-store layout can raise: numpy `IndexError` when
`results` has fewer than 2 columns and column 1 is written. -/
inductive FrontierErr where
  | indexError
deriving DecidableEq

/-- Source function `generate_efficient_frontier` (src/utils/portfolio_optimizer.py lines
52-106).  Control flow of the source, in order: solve max-Sharpe (failure →
empty DataFrame, modelled `.ok []`); compute its performance and its Sharpe by
an UNGUARDED division; solve min-volatility (failure → empty DataFrame);
compute its performance and guarded Sharpe; store the two distinguished
columns (an `IndexError` is raised here when `num_portfolios < 2`); sweep
`num_portfolios - 2` evenly spaced targets from the min-vol return to 1.2 ×
the max-Sharpe return, dropping failed points; label and return. -/
def generate_efficient_frontier (solver : Solver) (mean_returns : List ℝ)
    (cov_matrix : List (List ℝ)) (num_portfolios : ℕ) (risk_free_rate : ℝ)
    (constraints : ConstraintSet) (bounds : List (ℝ × ℝ)) :
    Except FrontierErr (List FrontierRow) :=
  let num_assets := mean_returns.length
  let init_guess := init_guess_equal num_assets
  match find_optimal_portfolio solver (.negSharpe risk_free_rate) mean_returns cov_matrix
      risk_free_rate num_assets constraints bounds with
  | none => .ok []
  | some max_sharpe_weights =>
    let pmax := calculate_portfolio_performance max_sharpe_weights mean_returns cov_matrix
    let max_sharpe_val := fdiv (pmax.1 - risk_free_rate) pmax.2
    match find_optimal_portfolio solver .volatility mean_returns cov_matrix
        risk_free_rate num_assets constraints bounds with
    | none => .ok []
    | some min_vol_weights =>
      let pmin := calculate_portfolio_performance min_vol_weights mean_returns cov_matrix
      let min_vol_sharpe := guardedSharpe pmin.1 pmin.2 risk_free_rate
      if num_portfolios < 2 then .error .indexError
      else
        let target_returns := linspace pmin.1 (pmax.1 * 1.2) (num_portfolios - 2)
        let sweep_cores := target_returns.filterMap (fun t =>
          (solver (sweepProblem mean_returns cov_matrix bounds init_guess t)).map
            (mkSweepCore mean_returns cov_matrix risk_free_rate))
        .ok (labelRows 0
          (⟨pmin.1, pmin.2, min_vol_sharpe, min_vol_weights⟩ ::
           ⟨pmax.1, pmax.2, max_sharpe_val, max_sharpe_weights⟩ :: sweep_cores))

/-- The sequence of problems `generate_efficient_frontier` hands to the
solver, in call order, mirroring the control flow above: the max-Sharpe
problem always; the min-volatility problem unless the first solve failed; the
sweep problems only when both distinguished solves succeed and the column
store did not raise. -/
def frontierSolverCalls (solver : Solver) (mean_returns : List ℝ)
    (cov_matrix : List (List ℝ)) (num_portfolios : ℕ) (risk_free_rate : ℝ)
    (constraints : ConstraintSet) (bounds : List (ℝ × ℝ)) : List OptProblem :=
  let maxP := maxSharpeProblem mean_returns cov_matrix risk_free_rate constraints bounds
  match solver maxP with
  | none => [maxP]
  | some max_sharpe_weights =>
    let minP := minVolProblem mean_returns cov_matrix constraints bounds
    match solver minP with
    | none => [maxP, minP]
    | some min_vol_weights =>
      if num_portfolios < 2 then [maxP, minP]
      else
        let pmax := calculate_portfolio_performance max_sharpe_weights mean_returns cov_matrix
        let pmin := calculate_portfolio_performance min_vol_weights mean_returns cov_matrix
        [maxP, minP] ++
          (linspace pmin.1 (pmax.1 * 1.2) (num_portfolios - 2)).map
            (sweepProblem mean_returns cov_matrix bounds (init_guess_equal mean_returns.length))

/-- The guard at the top of `show` in src/pages/4_💼_Portfolio_Optimization.py
(lines 20-22): with fewer than 2 selected tickers the page shows an info
message and returns early, so `generate_efficient_frontier` is never reached. -/
def portfolio_page_reaches_optimizer (num_tickers : ℕ) : Bool :=
  if num_tickers < 2 then false else true

end

/-! ### General lemmas about the optimizer embedding -/

theorem labelRows_length (i : ℕ) (cs : List RowCore) :
    (labelRows i cs).length = cs.length := by
  induction cs generalizing i with
  | nil => rfl
  | cons c cs ih => simp [labelRows, ih]

theorem linspace_length (a b : ℝ) (num : ℕ) :
    (linspace a b num).length = num := by
  unfold linspace
  by_cases h : num = 1
  · simp [h]
  · simp [h]

theorem linspace_getD (a b : ℝ) (num i : ℕ) (h : i < num) :
    (linspace a b num).getD i 0
      = if num = 1 then a else a + (b - a) * i / ((num : ℝ) - 1) := by
  unfold linspace
  by_cases h1 : num = 1
  · subst h1
    interval_cases i
    simp
  · rw [if_neg h1, if_neg h1]
    rw [List.getD_eq_getElem?_getD, List.getElem?_map, List.getElem?_range h]
    rfl

theorem filterMap_optionMap_length {α β γ : Type} (l : List α) (g : α → Option β)
    (f : β → γ) :
    (l.filterMap (fun t => (g t).map f)).length = (l.filterMap g).length := by
  induction l with
  | nil => rfl
  | cons x xs ih =>
    cases hg : g x <;> simp [List.filterMap_cons, hg, ih]

/-- Unfolding of `generate_efficient_frontier` to the solver calls it makes — a
definitional restatement used to drive the claim proofs. -/
theorem gen_unfold (solver : Solver) (μ : List ℝ) (cov : List (List ℝ)) (n : ℕ)
    (rf : ℝ) (cons : ConstraintSet) (bounds : List (ℝ × ℝ)) :
    generate_efficient_frontier solver μ cov n rf cons bounds =
      match solver (maxSharpeProblem μ cov rf cons bounds) with
      | none => .ok []
      | some wmax =>
        match solver (minVolProblem μ cov cons bounds) with
        | none => .ok []
        | some wmin =>
          if n < 2 then .error .indexError
          else
            .ok (labelRows 0
              (⟨(calculate_portfolio_performance wmin μ cov).1,
                (calculate_portfolio_performance wmin μ cov).2,
                guardedSharpe (calculate_portfolio_performance wmin μ cov).1
                  (calculate_portfolio_performance wmin μ cov).2 rf, wmin⟩ ::
               ⟨(calculate_portfolio_performance wmax μ cov).1,
                (calculate_portfolio_performance wmax μ cov).2,
                fdiv ((calculate_portfolio_performance wmax μ cov).1 - rf)
                  (calculate_portfolio_performance wmax μ cov).2, wmax⟩ ::
               (linspace (calculate_portfolio_performance wmin μ cov).1
                   ((calculate_portfolio_performance wmax μ cov).1 * 1.2) (n - 2)).filterMap
                 (fun t =>
                   (solver (sweepProblem μ cov bounds (init_guess_equal μ.length) t)).map
                     (mkSweepCore μ cov rf)))) := rfl

/-- The head of `frontierSolverCalls` is always the max-Sharpe problem — the
solver is invoked no matter what the inputs are (no asset-count guard). -/
theorem frontierSolverCalls_head (solver : Solver) (μ : List ℝ)
    (cov : List (List ℝ)) (n : ℕ) (rf : ℝ) (cons : ConstraintSet)
    (bounds : List (ℝ × ℝ)) :
    (frontierSolverCalls solver μ cov n rf cons bounds).head?
      = some (maxSharpeProblem μ cov rf cons bounds) := by
  cases h1 : solver (maxSharpeProblem μ cov rf cons bounds) with
  | none => simp [frontierSolverCalls, h1]
  | some wmax =>
    cases h2 : solver (minVolProblem μ cov cons bounds) with
    | none => simp [frontierSolverCalls, h1, h2]
    | some wmin =>
      by_cases hn : n < 2 <;> simp [frontierSolverCalls, h1, h2, hn]

/-- A solver oracle that always fails (`result.success = False`). -/
def failSolver : Solver := fun _ => none

/-- A solver oracle that always succeeds with the fixed weight vector `w`. -/
def constSolver (w : List ℝ) : Solver := fun _ => some w

theorem dotR_eq_sum : ∀ (xs ys : List ℝ) (n : ℕ), xs.length = n → ys.length = n →
    dotR xs ys = ∑ i ∈ Finset.range n, xs.getD i 0 * ys.getD i 0 := by
  intro xs
  induction xs with
  | nil =>
    intro ys n hx hy
    subst hx
    simp [dotR]
  | cons x xs ih =>
    intro ys n hx hy
    cases ys with
    | nil =>
      rw [List.length_cons] at hx
      rw [List.length_nil] at hy
      omega
    | cons y ys =>
      cases n with
      | zero => rw [List.length_cons] at hx; omega
      | succ m =>
        have hx' : xs.length = m := by rw [List.length_cons] at hx; omega
        have hy' : ys.length = m := by rw [List.length_cons] at hy; omega
        have hd : dotR (x :: xs) (y :: ys) = x * y + dotR xs ys := by
          simp [dotR]
        rw [hd, ih ys m hx' hy', Finset.sum_range_succ']
        simp only [List.getD_cons_succ, List.getD_cons_zero]
        ring

/-- Claim C6. For matching dimensions, `calculate_portfolio_performance` returns
exactly the pair `(252 × Σᵢ wᵢ μᵢ, sqrt 252 × sqrt (Σᵢ Σⱼ wᵢ Σᵢⱼ wⱼ))`, the
annualization factor being the fixed constant 252. -/
theorem C6_performance_formula (w μ : List ℝ) (cov : List (List ℝ)) (n : ℕ)
    (hw : w.length = n) (hμ : μ.length = n) (hcov : cov.length = n)
    (hrow : ∀ row ∈ cov, row.length = n) :
    calculate_portfolio_performance w μ cov
      = (252 * ∑ i ∈ Finset.range n, w.getD i 0 * μ.getD i 0,
         Real.sqrt 252 * Real.sqrt (∑ i ∈ Finset.range n, ∑ j ∈ Finset.range n,
           w.getD i 0 * ((cov.getD i []).getD j 0) * w.getD j 0)) := by
  have h1 : dotR μ w = ∑ i ∈ Finset.range n, w.getD i 0 * μ.getD i 0 := by
    rw [dotR_eq_sum μ w n hμ hw]
    exact Finset.sum_congr rfl (fun i _ => mul_comm _ _)
  have hmv : (matVec cov w).length = n := by simp [matVec, hcov]
  have hmvi : ∀ i, i < n → (matVec cov w).getD i 0 = dotR (cov.getD i []) w := by
    intro i hi
    have hic : i < cov.length := by omega
    unfold matVec
    rw [List.getD_eq_getElem (List.map (fun row => dotR row w) cov) 0 (by simpa using hic),
      List.getElem_map, List.getD_eq_getElem cov [] hic]
  have h2 : dotR w (matVec cov w)
      = ∑ i ∈ Finset.range n, ∑ j ∈ Finset.range n,
          w.getD i 0 * ((cov.getD i []).getD j 0) * w.getD j 0 := by
    rw [dotR_eq_sum w (matVec cov w) n hw hmv]
    refine Finset.sum_congr rfl (fun i hi => ?_)
    have hic : i < cov.length := by
      rw [hcov]
      exact Finset.mem_range.mp hi
    have hmem : cov.getD i [] ∈ cov := by
      rw [List.getD_eq_getElem cov [] hic]
      exact List.getElem_mem hic
    rw [hmvi i (Finset.mem_range.mp hi),
      dotR_eq_sum (cov.getD i []) w n (hrow _ hmem) hw,
      Finset.mul_sum]
    exact Finset.sum_congr rfl (fun j _ => by ring)
  unfold calculate_portfolio_performance
  rw [Prod.mk.injEq]
  exact ⟨by rw [h1]; ring, by rw [h2]; ring⟩

/-- Witness for C6 at a concrete 1-asset instance. -/
theorem C6_witness :
    List.length [(2:ℝ)] = 1 ∧ List.length [(3:ℝ)] = 1 ∧
    List.length [[(5:ℝ)]] = 1 ∧ (∀ row ∈ [[(5:ℝ)]], List.length row = 1) ∧
    calculate_portfolio_performance [(2:ℝ)] [(3:ℝ)] [[(5:ℝ)]]
      = (252 * ∑ i ∈ Finset.range 1, ([(2:ℝ)].getD i 0) * ([(3:ℝ)].getD i 0),
         Real.sqrt 252 * Real.sqrt (∑ i ∈ Finset.range 1, ∑ j ∈ Finset.range 1,
           ([(2:ℝ)].getD i 0) * (([[(5:ℝ)]].getD i []).getD j 0) * ([(2:ℝ)].getD j 0))) :=
  ⟨rfl, rfl, rfl, by simp,
    C6_performance_formula [(2:ℝ)] [(3:ℝ)] [[(5:ℝ)]] 1 rfl rfl rfl (by simp)⟩

/-- Claim C1. A failed max-Sharpe solve, or a failed min-volatility solve, makes
the whole frontier request return the empty result (never a weight vector);
when both distinguished solves succeed, each failed sweep target is dropped
individually: the table has exactly 2 + (number of successful sweep solves)
rows, at most the requested portfolio count, and is never padded. -/
theorem C1_failure_policy (solver : Solver) (μ : List ℝ) (cov : List (List ℝ))
    (n : ℕ) (rf : ℝ) (cons : ConstraintSet) (bounds : List (ℝ × ℝ)) :
    (solver (maxSharpeProblem μ cov rf cons bounds) = none →
      generate_efficient_frontier solver μ cov n rf cons bounds = .ok []) ∧
    (∀ wmax, solver (maxSharpeProblem μ cov rf cons bounds) = some wmax →
      solver (minVolProblem μ cov cons bounds) = none →
      generate_efficient_frontier solver μ cov n rf cons bounds = .ok []) ∧
    (∀ wmax wmin, solver (maxSharpeProblem μ cov rf cons bounds) = some wmax →
      solver (minVolProblem μ cov cons bounds) = some wmin → 2 ≤ n →
      ∃ rows, generate_efficient_frontier solver μ cov n rf cons bounds = .ok rows ∧
        rows.length = 2 + ((linspace (calculate_portfolio_performance wmin μ cov).1
            ((calculate_portfolio_performance wmax μ cov).1 * 1.2) (n - 2)).filterMap
            (fun t => solver (sweepProblem μ cov bounds (init_guess_equal μ.length) t))).length ∧
        rows.length ≤ n) := by
  refine ⟨?_, ?_, ?_⟩
  · intro h1
    rw [gen_unfold, h1]
  · intro wmax h1 h2
    rw [gen_unfold, h1, h2]
  · intro wmax wmin h1 h2 hn
    refine ⟨labelRows 0
      (⟨(calculate_portfolio_performance wmin μ cov).1,
        (calculate_portfolio_performance wmin μ cov).2,
        guardedSharpe (calculate_portfolio_performance wmin μ cov).1
          (calculate_portfolio_performance wmin μ cov).2 rf, wmin⟩ ::
       ⟨(calculate_portfolio_performance wmax μ cov).1,
        (calculate_portfolio_performance wmax μ cov).2,
        fdiv ((calculate_portfolio_performance wmax μ cov).1 - rf)
          (calculate_portfolio_performance wmax μ cov).2, wmax⟩ ::
       (linspace (calculate_portfolio_performance wmin μ cov).1
          ((calculate_portfolio_performance wmax μ cov).1 * 1.2) (n - 2)).filterMap
         (fun t => (solver (sweepProblem μ cov bounds (init_guess_equal μ.length) t)).map
           (mkSweepCore μ cov rf))), ?_, ?_, ?_⟩
    · simp only [gen_unfold, h1, h2]
      rw [if_neg (by omega)]
    · rw [labelRows_length]
      simp only [List.length_cons]
      rw [filterMap_optionMap_length]
      omega
    · rw [labelRows_length]
      simp only [List.length_cons]
      have hle := List.length_filterMap_le
        (fun t => (solver (sweepProblem μ cov bounds (init_guess_equal μ.length) t)).map
          (mkSweepCore μ cov rf))
        (linspace (calculate_portfolio_performance wmin μ cov).1
          ((calculate_portfolio_performance wmax μ cov).1 * 1.2) (n - 2))
      rw [linspace_length] at hle
      omega

/-- Witness for C1 (abort branch): with a solver that always fails, the
frontier request returns the empty result. -/
theorem C1_witness :
    failSolver (maxSharpeProblem [(0:ℝ)] [[0]] 0 ⟨true, none⟩ [((0:ℝ), 1)]) = none ∧
    generate_efficient_frontier failSolver [(0:ℝ)] [[0]] 3 0 ⟨true, none⟩ [((0:ℝ), 1)]
      = .ok [] :=
  ⟨rfl, (C1_failure_policy failSolver [(0:ℝ)] [[0]] 3 0 ⟨true, none⟩ [((0:ℝ), 1)]).1 rfl⟩

theorem labelRows_two (c1 c2 : RowCore) (rest : List RowCore) :
    labelRows 0 (c1 :: c2 :: rest) =
      ⟨"Min Volatility", c1⟩ :: ⟨"Max Sharpe", c2⟩ :: labelRows 2 rest := by
  have h1 : renameLabel (portfolioLabel 0) = "Min Volatility" := by decide
  have h2 : renameLabel (portfolioLabel 1) = "Max Sharpe" := by decide
  simp [labelRows, h1, h2]

/-- The zero-everything 1-asset portfolio performance, used at concrete
inputs. -/
theorem perf_one_asset_zero :
    calculate_portfolio_performance [1] [(0:ℝ)] [[0]] = (0, 0) := by
  unfold calculate_portfolio_performance matVec dotR
  norm_num

/-- Claim C2, counterexample. Claim: any input with fewer than 2 assets makes
the optimizer fail with an `InsufficientAssets` error before the solver is
invoked.  The optimizer has no asset-count check at all: called on a single
asset it invokes the solver (both distinguished solves run) and returns an
ordinary two-row frontier, no error. -/
theorem C2_counterexample :
    frontierSolverCalls (constSolver [1]) [(0:ℝ)] [[0]] 2 0 ⟨true, none⟩ [((0:ℝ), 1)]
      = [maxSharpeProblem [(0:ℝ)] [[0]] 0 ⟨true, none⟩ [((0:ℝ), 1)],
         minVolProblem [(0:ℝ)] [[0]] ⟨true, none⟩ [((0:ℝ), 1)]] ∧
    generate_efficient_frontier (constSolver [1]) [(0:ℝ)] [[0]] 2 0 ⟨true, none⟩
        [((0:ℝ), 1)]
      = .ok [⟨"Min Volatility", 0, 0, some 0, [1]⟩, ⟨"Max Sharpe", 0, 0, none, [1]⟩] := by
  constructor
  · simp [frontierSolverCalls, constSolver, linspace, perf_one_asset_zero]
  · simp only [gen_unfold, constSolver]
    rw [if_neg (by omega)]
    simp only [perf_one_asset_zero]
    have hlin : linspace (0:ℝ) (0 * 1.2) (2 - 2) = [] := by
      unfold linspace
      norm_num
    rw [hlin, List.filterMap_nil, labelRows_two]
    simp [guardedSharpe, fdiv, labelRows]

/-- Claim C2, amended. No `InsufficientAssets` error exists anywhere in the
code.  Fewer than 2 selected tickers is handled by the caller page (early
return with an info message, no optimizer call); the optimizer itself performs
no asset-count validation: called directly with exactly 1 asset its very first
action is to hand the max-Sharpe problem to the solver, and with 0 assets the
equal-weight initial-guess construction `1. / num_assets` raises
`ZeroDivisionError` before the solver is reached — still not an
`InsufficientAssets` error. -/
theorem C2_no_asset_guard :
    (∀ num_tickers, num_tickers < 2 →
        portfolio_page_reaches_optimizer num_tickers = false) ∧
    (∀ (solver : Solver) (μ : List ℝ) (cov : List (List ℝ)) (n : ℕ) (rf : ℝ)
        (cons : ConstraintSet) (bounds : List (ℝ × ℝ)), μ.length = 1 →
        (frontierSolverCalls solver μ cov n rf cons bounds).head?
          = some (maxSharpeProblem μ cov rf cons bounds)) ∧
    init_guess_build 0 = none ∧
    (∀ n, 1 ≤ n → init_guess_build n = some (init_guess_equal n)) := by
  refine ⟨?_, ?_, rfl, ?_⟩
  · intro k hk
    unfold portfolio_page_reaches_optimizer
    rw [if_pos hk]
  · intro solver μ cov n rf cons bounds _
    exact frontierSolverCalls_head solver μ cov n rf cons bounds
  · intro n hn
    unfold init_guess_build
    rw [if_neg (by omega)]

/-- Witness for C2 (amended): one ticker never reaches the optimizer from the
page; the optimizer called directly on one asset still consults the solver;
the 0-asset initial-guess build is the raised error, the 2-asset one is not. -/
theorem C2_witness :
    (1 : ℕ) < 2 ∧ portfolio_page_reaches_optimizer 1 = false ∧
    List.length [(0:ℝ)] = 1 ∧
    (frontierSolverCalls failSolver [(0:ℝ)] [[0]] 5 0 ⟨true, none⟩ []).head?
      = some (maxSharpeProblem [(0:ℝ)] [[0]] 0 ⟨true, none⟩ []) ∧
    init_guess_build 0 = none ∧
    (1 : ℕ) ≤ 2 ∧ init_guess_build 2 = some (init_guess_equal 2) :=
  ⟨by omega, C2_no_asset_guard.1 1 (by omega), by simp,
    C2_no_asset_guard.2.1 failSolver [(0:ℝ)] [[0]] 5 0 ⟨true, none⟩ [] (by simp),
    C2_no_asset_guard.2.2.1, by omega, C2_no_asset_guard.2.2.2 2 (by omega)⟩

/-- The zero-everything 2-asset portfolio performance, used at concrete
inputs. -/
theorem perf_two_asset_zero :
    calculate_portfolio_performance [(1:ℝ)/2, 1/2] [(0:ℝ), 0] [[0,0],[0,0]] = (0, 0) := by
  unfold calculate_portfolio_performance matVec dotR
  norm_num

/-- Claim C7, counterexample. Claim: every Sharpe ratio stored in the frontier
table, including the Max Sharpe point's, is produced with a nonzero divisor or
a guarded fallback, so no division by zero can occur.  With a zero covariance
matrix the successful max-Sharpe solve has volatility 0 and the source line
`max_sharpe_ratio = (max_sharpe_ret - risk_free_rate) / max_sharpe_vol`
divides by zero unguarded: the stored value (`none` here, the IEEE non-real)
is not a guarded fallback, while the min-volatility row's guard yields 0. -/
theorem C7_counterexample :
    generate_efficient_frontier (constSolver [(1:ℝ)/2, 1/2]) [(0:ℝ), 0] [[0,0],[0,0]]
        2 0 ⟨true, none⟩ [((0:ℝ), 1), ((0:ℝ), 1)]
      = .ok [⟨"Min Volatility", 0, 0, some 0, [(1:ℝ)/2, 1/2]⟩,
             ⟨"Max Sharpe", 0, 0, none, [(1:ℝ)/2, 1/2]⟩] := by
  simp only [gen_unfold, constSolver]
  rw [if_neg (by omega)]
  simp only [perf_two_asset_zero]
  have hlin : linspace (0:ℝ) (0 * 1.2) (2 - 2) = [] := by
    unfold linspace
    norm_num
  rw [hlin, List.filterMap_nil, labelRows_two]
  simp [guardedSharpe, fdiv, labelRows]

/-- Claim C7, amended. The negative-Sharpe objective returns `+∞` at zero
volatility instead of dividing, and the Min-Volatility and sweep-point Sharpe
values are guarded (always defined); but the Max Sharpe point's stored Sharpe
is the unguarded division `(ret − rf) / vol`, undefined exactly when the
max-Sharpe volatility is 0. -/
theorem C7_guard_coverage (μ : List ℝ) (cov : List (List ℝ)) (rf : ℝ) :
    (∀ w, (calculate_portfolio_performance w μ cov).2 = 0 →
        calculate_neg_sharpe w μ cov rf = ⊤) ∧
    (∀ w, (calculate_portfolio_performance w μ cov).2 ≠ 0 →
        calculate_neg_sharpe w μ cov rf
          = (((-((calculate_portfolio_performance w μ cov).1 - rf))
              / (calculate_portfolio_performance w μ cov).2 : ℝ) : EReal)) ∧
    (∀ ret vol : ℝ, (guardedSharpe ret vol rf).isSome = true) ∧
    (∀ x y : ℝ, fdiv x y = none ↔ y = 0) ∧
    (∀ (solver : Solver) (cons : ConstraintSet) (bounds : List (ℝ × ℝ)) (n : ℕ)
        (wmax wmin : List ℝ),
        solver (maxSharpeProblem μ cov rf cons bounds) = some wmax →
        solver (minVolProblem μ cov cons bounds) = some wmin → 2 ≤ n →
        ∃ sweep : List RowCore,
          generate_efficient_frontier solver μ cov n rf cons bounds
            = .ok (labelRows 0
                (⟨(calculate_portfolio_performance wmin μ cov).1,
                  (calculate_portfolio_performance wmin μ cov).2,
                  guardedSharpe (calculate_portfolio_performance wmin μ cov).1
                    (calculate_portfolio_performance wmin μ cov).2 rf, wmin⟩ ::
                 ⟨(calculate_portfolio_performance wmax μ cov).1,
                  (calculate_portfolio_performance wmax μ cov).2,
                  fdiv ((calculate_portfolio_performance wmax μ cov).1 - rf)
                    (calculate_portfolio_performance wmax μ cov).2, wmax⟩ :: sweep)) ∧
          ∀ c ∈ sweep, c.sharpeVal.isSome = true) := by
  refine ⟨?_, ?_, ?_, ?_, ?_⟩
  · intro w h
    simp [calculate_neg_sharpe, h]
  · intro w h
    simp [calculate_neg_sharpe, h]
  · intro ret vol
    unfold guardedSharpe fdiv
    by_cases h : vol = 0 <;> simp [h]
  · intro x y
    unfold fdiv
    by_cases h : y = 0 <;> simp [h]
  · intro solver cons bounds n wmax wmin hmax hmin hn
    refine ⟨(linspace (calculate_portfolio_performance wmin μ cov).1
        ((calculate_portfolio_performance wmax μ cov).1 * 1.2) (n - 2)).filterMap
          (fun t => (solver (sweepProblem μ cov bounds (init_guess_equal μ.length) t)).map
            (mkSweepCore μ cov rf)), ?_, ?_⟩
    · simp only [gen_unfold, hmax, hmin]
      rw [if_neg (by omega)]
    · intro c hc
      obtain ⟨t, _, ht⟩ := List.mem_filterMap.mp hc
      obtain ⟨w, _, hw⟩ := Option.map_eq_some'.mp ht
      rw [← hw]
      unfold mkSweepCore guardedSharpe fdiv
      by_cases h : (calculate_portfolio_performance w μ cov).2 = 0 <;> simp [h]

/-- Witness for C7 (amended): at a zero-variance single asset the objective is
`+∞`, the guarded Sharpe is defined, and `fdiv` is undefined exactly on a zero
divisor. -/
theorem C7_witness :
    (calculate_portfolio_performance [1] [(0:ℝ)] [[0]]).2 = 0 ∧
    calculate_neg_sharpe [1] [(0:ℝ)] [[0]] 0 = ⊤ ∧
    (guardedSharpe 5 0 0).isSome = true ∧
    (fdiv (5:ℝ) 0 = none ↔ (0:ℝ) = 0) := by
  have hp : (calculate_portfolio_performance [1] [(0:ℝ)] [[0]]).2 = 0 := by
    rw [perf_one_asset_zero]
  exact ⟨hp, (C7_guard_coverage [(0:ℝ)] [[0]] 0).1 [1] hp,
    (C7_guard_coverage [(0:ℝ)] [[0]] 0).2.2.1 5 0,
    (C7_guard_coverage [(0:ℝ)] [[0]] 0).2.2.2.1 5 0⟩

/-- Claim C9, counterexample. Claim: a requested portfolio count ≤ 2 yields the
two distinguished points.  At count 1 (with both solves succeeding) the dense
store `results[0,1] = …` raises an `IndexError` instead: no frontier at all. -/
theorem C9_counterexample :
    generate_efficient_frontier (constSolver [(1:ℝ)/2, 1/2]) [(0:ℝ), 0] [[0,0],[0,0]]
        1 0 ⟨true, none⟩ [((0:ℝ), 1), ((0:ℝ), 1)]
      = .error .indexError := by
  simp only [gen_unfold, constSolver]
  rw [if_pos (by omega)]

/-- Claim C9, amended. With both distinguished solves succeeding, a requested
count of exactly 2 yields exactly the two distinguished rows, labeled
`Min Volatility` and `Max Sharpe`, with no sweep solver invocations; a count
of 0 or 1 instead raises an `IndexError` when the distinguished columns are
stored. -/
theorem C9_count_two (solver : Solver) (μ : List ℝ) (cov : List (List ℝ)) (rf : ℝ)
    (cons : ConstraintSet) (bounds : List (ℝ × ℝ)) (wmax wmin : List ℝ)
    (hmax : solver (maxSharpeProblem μ cov rf cons bounds) = some wmax)
    (hmin : solver (minVolProblem μ cov cons bounds) = some wmin) :
    (generate_efficient_frontier solver μ cov 2 rf cons bounds
      = .ok [⟨"Min Volatility", (calculate_portfolio_performance wmin μ cov).1,
              (calculate_portfolio_performance wmin μ cov).2,
              guardedSharpe (calculate_portfolio_performance wmin μ cov).1
                (calculate_portfolio_performance wmin μ cov).2 rf, wmin⟩,
             ⟨"Max Sharpe", (calculate_portfolio_performance wmax μ cov).1,
              (calculate_portfolio_performance wmax μ cov).2,
              fdiv ((calculate_portfolio_performance wmax μ cov).1 - rf)
                (calculate_portfolio_performance wmax μ cov).2, wmax⟩]) ∧
    frontierSolverCalls solver μ cov 2 rf cons bounds
      = [maxSharpeProblem μ cov rf cons bounds, minVolProblem μ cov cons bounds] ∧
    (∀ n < 2, generate_efficient_frontier solver μ cov n rf cons bounds
        = .error .indexError) := by
  refine ⟨?_, ?_, ?_⟩
  · simp only [gen_unfold, hmax, hmin]
    rw [if_neg (by omega)]
    have hlin : linspace (calculate_portfolio_performance wmin μ cov).1
        ((calculate_portfolio_performance wmax μ cov).1 * 1.2) (2 - 2) = [] := by
      unfold linspace
      norm_num
    rw [hlin, List.filterMap_nil, labelRows_two]
    rfl
  · simp [frontierSolverCalls, hmax, hmin, linspace]
  · intro n hn
    simp only [gen_unfold, hmax, hmin]
    rw [if_pos hn]

/-- Witness for C9 (amended) at a concrete two-asset input with a constant
solver oracle. -/
theorem C9_witness :
    constSolver [(1:ℝ)/2, 1/2] (maxSharpeProblem [(0:ℝ), 0] [[0,0],[0,0]] 0
        ⟨true, none⟩ [((0:ℝ), 1), ((0:ℝ), 1)]) = some [(1:ℝ)/2, 1/2] ∧
    constSolver [(1:ℝ)/2, 1/2] (minVolProblem [(0:ℝ), 0] [[0,0],[0,0]]
        ⟨true, none⟩ [((0:ℝ), 1), ((0:ℝ), 1)]) = some [(1:ℝ)/2, 1/2] ∧
    frontierSolverCalls (constSolver [(1:ℝ)/2, 1/2]) [(0:ℝ), 0] [[0,0],[0,0]] 2 0
        ⟨true, none⟩ [((0:ℝ), 1), ((0:ℝ), 1)]
      = [maxSharpeProblem [(0:ℝ), 0] [[0,0],[0,0]] 0 ⟨true, none⟩
          [((0:ℝ), 1), ((0:ℝ), 1)],
         minVolProblem [(0:ℝ), 0] [[0,0],[0,0]] ⟨true, none⟩
          [((0:ℝ), 1), ((0:ℝ), 1)]] :=
  ⟨rfl, rfl,
    (C9_count_two (constSolver [(1:ℝ)/2, 1/2]) [(0:ℝ), 0] [[0,0],[0,0]] 0
      ⟨true, none⟩ [((0:ℝ), 1), ((0:ℝ), 1)] [(1:ℝ)/2, 1/2] [(1:ℝ)/2, 1/2]
      rfl rfl).2.1⟩

/-- Claim C4. When both distinguished solves succeed (and the count is a valid
`≥ 2`), the sweep poses exactly `count − 2` targets, the numpy-linspace points
of `[r_min, r_max × 1.2]` (first point `r_min`, last point `r_max × 1.2`,
consecutive points evenly spaced); each posed problem minimizes the
volatility objective under the sum-to-one constraint plus the equality
`annualizedReturn(w) = t`, with the caller's `[0,1]` box bounds and the
equal-weight initial guess. -/
theorem C4_sweep_specification (solver : Solver) (μ : List ℝ) (cov : List (List ℝ))
    (n : ℕ) (rf : ℝ) (cons : ConstraintSet) (b01 : List (ℝ × ℝ))
    (wmax wmin : List ℝ) (rmin rmax : ℝ)
    (hb : b01 = List.replicate μ.length ((0:ℝ), 1))
    (hmax : solver (maxSharpeProblem μ cov rf cons b01) = some wmax)
    (hmin : solver (minVolProblem μ cov cons b01) = some wmin)
    (hra : rmin = (calculate_portfolio_performance wmin μ cov).1)
    (hrb : rmax = (calculate_portfolio_performance wmax μ cov).1)
    (hn : 2 ≤ n) :
    (linspace rmin (rmax * 1.2) (n - 2)).length = n - 2 ∧
    frontierSolverCalls solver μ cov n rf cons b01
      = [maxSharpeProblem μ cov rf cons b01, minVolProblem μ cov cons b01] ++
        (linspace rmin (rmax * 1.2) (n - 2)).map
          (fun t => (⟨.volatility, μ, cov, ⟨true, some t⟩, b01,
              init_guess_equal μ.length⟩ : OptProblem)) ∧
    (∀ i, i < n - 2 → (linspace rmin (rmax * 1.2) (n - 2)).getD i 0
        = if n - 2 = 1 then rmin
          else rmin + (rmax * 1.2 - rmin) * i / (((n - 2 : ℕ) : ℝ) - 1)) ∧
    (2 ≤ n - 2 →
      (linspace rmin (rmax * 1.2) (n - 2)).getD 0 0 = rmin ∧
      (linspace rmin (rmax * 1.2) (n - 2)).getD (n - 2 - 1) 0 = rmax * 1.2) ∧
    (∀ t w, satisfiesConstraints ⟨true, some t⟩ μ cov w ↔
        (w.sum = 1 ∧ (calculate_portfolio_performance w μ cov).1 = t)) ∧
    (∀ w, objectiveValue .volatility w μ cov
        = ((calculate_portfolio_performance w μ cov).2 : EReal)) := by
  subst hra hrb hb
  have hn2 : ¬ n < 2 := by omega
  refine ⟨linspace_length _ _ _, ?_, ?_, ?_, ?_, ?_⟩
  · simp [frontierSolverCalls, hmax, hmin, hn2, sweepProblem]
  · intro i hi
    exact linspace_getD _ _ _ i hi
  · intro hK
    have h1 : ¬ n - 2 = 1 := by omega
    constructor
    · rw [linspace_getD _ _ _ 0 (by omega), if_neg h1]
      norm_num
    · rw [linspace_getD _ _ _ (n - 2 - 1) (by omega), if_neg h1]
      have hx : (((n - 2 : ℕ) : ℝ) - 1) ≠ 0 := by
        have : (2 : ℝ) ≤ ((n - 2 : ℕ) : ℝ) := by exact_mod_cast hK
        linarith
      have hcast : (((n - 2 - 1 : ℕ)) : ℝ) = ((n - 2 : ℕ) : ℝ) - 1 := by
        have : (1 : ℕ) ≤ n - 2 := by omega
        push_cast [Nat.cast_sub this]
        ring
      rw [hcast, mul_div_assoc, div_self hx, mul_one]
      ring
  · intro t w
    constructor
    · intro ⟨hsum, htr⟩
      exact ⟨hsum rfl, htr t rfl⟩
    · intro ⟨hsum, htr⟩
      exact ⟨fun _ => hsum, fun s hs => by
        rw [Option.some.injEq] at hs
        rw [← hs]
        exact htr⟩
  · intro w
    rfl

/-- Witness for C4 at a concrete two-asset input, count 4, constant solver. -/
theorem C4_witness :
    ([((0:ℝ), 1), ((0:ℝ), 1)] : List (ℝ × ℝ))
      = List.replicate (List.length [(0:ℝ), 0]) ((0:ℝ), 1) ∧
    constSolver [(1:ℝ)/2, 1/2] (maxSharpeProblem [(0:ℝ), 0] [[0,0],[0,0]] 0
        ⟨true, none⟩ [((0:ℝ), 1), ((0:ℝ), 1)]) = some [(1:ℝ)/2, 1/2] ∧
    constSolver [(1:ℝ)/2, 1/2] (minVolProblem [(0:ℝ), 0] [[0,0],[0,0]]
        ⟨true, none⟩ [((0:ℝ), 1), ((0:ℝ), 1)]) = some [(1:ℝ)/2, 1/2] ∧
    (0:ℝ) = (calculate_portfolio_performance [(1:ℝ)/2, 1/2] [(0:ℝ), 0] [[0,0],[0,0]]).1 ∧
    (2:ℕ) ≤ 4 ∧
    (linspace (0:ℝ) (0 * 1.2) (4 - 2)).length = 4 - 2 := by
  have hp : (0:ℝ) = (calculate_portfolio_performance [(1:ℝ)/2, 1/2] [(0:ℝ), 0]
      [[0,0],[0,0]]).1 := by
    rw [perf_two_asset_zero]
  exact ⟨rfl, rfl, rfl, hp, by omega,
    (C4_sweep_specification (constSolver [(1:ℝ)/2, 1/2]) [(0:ℝ), 0] [[0,0],[0,0]] 4 0
      ⟨true, none⟩ [((0:ℝ), 1), ((0:ℝ), 1)] [(1:ℝ)/2, 1/2] [(1:ℝ)/2, 1/2] 0 0
      rfl rfl rfl hp hp (by omega)).1⟩

end BellCurve
